import Mathlib

/-!
# Shallow embedding of `pyravendb/d_commands/raven_commands.py`

Each Python command class becomes a Lean structure holding the base
`RavenCommand` fields (`url`, `method`, `data`, `headers`) together with its
own constructor arguments.  `create_request(server_node)` mutates the command
in place in Python; here it is a state transformer returning the updated
record paired with `Option PyErr`: on an error the returned record carries
exactly the mutations performed before the raise, so that partial-mutation
claims are expressible.  `set_response(response)` returns a value or raises;
here it returns `Except PyErr (Option Json)` (or `Except PyErr Json` where the
Python method never returns None on success).
-/

namespace PyRaven

/-- A JSON value, the model of Python dicts/lists/strings produced by
`response.json()` and placed in request bodies. -/
inductive Json where
  | str : String → Json
  | num : Int → Json
  | bool : Bool → Json
  | null : Json
  | arr : List Json → Json
  | obj : List (String × Json) → Json
deriving Repr

/-- `"k" in response` for a parsed JSON object: membership among the keys of a
dict.  On a non-dict value the Python `in` tests element membership (list) or
substring (str); no command reaches that case after a successful dict parse,
and it is modelled as `false`. -/
def Json.hasKey : Json → String → Bool
  | .obj fields, k => fields.any (fun p => p.1 == k)
  | _, _ => false

/-- `response["k"]` for a parsed JSON object, used only after `hasKey` has
been checked (Python would raise KeyError otherwise; the commands always
guard with `in` first). -/
def Json.get : Json → String → Json
  | .obj fields, k => (match fields.find? (fun p => p.1 == k) with
      | some p => p.2
      | none => .null)
  | _, _ => .null

/-- The Python exceptions the commands can raise.

Modelled from the spec: `pyravendb.custom_exceptions.exceptions` is not under
`src/`; per the spec's error taxonomy (§7) the server-error classes
(`ErrorResponseException`, `FetchConcurrencyException`,
`InvalidOperationException`) are distinct classes and none of them is a
subclass of `ValueError`, so a `try/except ValueError` block does not catch
them. -/
inductive PyErr where
  | valueError : String → PyErr
  | keyError : String → PyErr
  | attributeError : String → PyErr
  | errorResponse : Json → PyErr
  | fetchConcurrency : Json → PyErr
  | invalidOperation : String → PyErr
deriving Repr

/-- A transport response: status code plus the body.  `jsonBody = none` models
a body that is not parseable JSON, in which case `response.json()` raises
`ValueError` (spec §3: a `Response` is a status code plus a lazily-parsed JSON
body; §7: a non-JSON body where JSON was mandatory is a protocol error). -/
structure Response where
  status_code : Nat
  jsonBody : Option Json
deriving Repr

/-- `response.json()`: the parsed body, or a raised `ValueError` when the body
is not valid JSON. -/
def Response.json (r : Response) : Except PyErr Json :=
  match r.jsonBody with
  | some j => .ok j
  | none => .error (.valueError "No JSON object could be decoded")

/-- A server node: base URL plus database name (spec §3). -/
structure ServerNode where
  url : String
  database : String
deriving Repr

/-- The module-level logger handle.  The source sets
`log = logging.basicConfig(filename=..., level=...)`; `logging.basicConfig`
configures the root logger and returns `None`, so `log` is `None`. -/
def log : Option Unit := none

/-- `log.info(msg)` / `log.debug(msg)`: an attribute access on the
module-level `log`, which is `None`, so it raises `AttributeError`. -/
def logCall (attr : String) (_msg : String) : Except PyErr Unit :=
  match log with
  | none => .error (.attributeError ("NoneType object has no attribute " ++ attr))
  | some _ => .ok ()

/-- A Python value used where a command field is dynamically typed (document
keys): a string, `None`, or some other non-string object. -/
inductive PyVal where
  | str : String → PyVal
  | pyNone : PyVal
  | other : PyVal
deriving Repr

/-- `"{0}".format(v)`: the string form of a key interpolated into a message or
URL (only ever applied to strings by the commands after their type checks,
except in log messages). -/
def PyVal.format : PyVal → String
  | .str s => s
  | .pyNone => "None"
  | .other => "<object>"

/-- `"\"{0}\"".format(etag)`: the correctly written positional format used by
`DeleteDocumentCommand.create_request` to build the `If-Match` value. -/
def formatQuotedPositional (arg : String) : String :=
  "\"" ++ arg ++ "\""

/-- `"\"{etag}\"".format(self.etag)` as written in
`PutDocumentCommand.create_request` and `PatchCommand.create_request`: the
template names the field `etag` but only a positional argument is supplied,
so Python raises `KeyError: 'etag'` and no string is produced. -/
def formatQuotedNamedEtag (_arg : String) : Except PyErr String :=
  .error (.keyError "etag")

/-- One hexadecimal digit as an (uppercase) character. -/
def hexDigit : Nat → Char
  | 0 => '0' | 1 => '1' | 2 => '2' | 3 => '3' | 4 => '4'
  | 5 => '5' | 6 => '6' | 7 => '7' | 8 => '8' | 9 => '9'
  | 10 => 'A' | 11 => 'B' | 12 => 'C' | 13 => 'D' | 14 => 'E'
  | _ => 'F'

/-- A character that percent-encoding leaves as itself (RFC 3986 unreserved). -/
def isUnreserved (ch : Char) : Bool :=
  ch.isAlphanum || ch == '-' || ch == '.' || ch == '_' || ch == '~'

/-- Percent-encode one character (byte-range characters; a key in this layer
is interpolated into a URL after this encoding). -/
def percentEncodeChar (reservedSlash : Bool) (ch : Char) : List Char :=
  if isUnreserved ch || (reservedSlash && ch == '/') then [ch]
  else ['%', hexDigit (ch.toNat / 16 % 16), hexDigit (ch.toNat % 16)]

namespace Utils

/-- Modelled from the spec: `Utils.quote_key` from `pyravendb.tools.utils` is
not under `src/`.  Spec §6: "All dynamic path segments (keys, index names,
free-text queries) must be percent-encoded"; the second argument (passed as
`True` for index names) additionally keeps `/` unescaped. -/
def quote_key (s : String) (reservedSlash : Bool := false) : String :=
  String.mk ((s.data.map (percentEncodeChar reservedSlash)).flatten)

end Utils

/-- `collections.OrderedDict.fromkeys(keys)` used as an order-preserving set:
each key is inserted in iteration order, and a key already present keeps its
original (first-seen) position. -/
def orderedDictFromKeys (keys : List String) : List String :=
  keys.foldl (fun acc k => if k ∈ acc then acc else acc ++ [k]) []

/-- The specification-side characterisation of first-seen-order
deduplication: keep each element's first occurrence, drop later duplicates. -/
def firstSeenDedup : List String → List String
  | [] => []
  | x :: xs => x :: firstSeenDedup (xs.filter (fun a => a ≠ x))
termination_by l => l.length
decreasing_by
  simp only [List.length_cons]
  exact Nat.lt_succ_of_le (List.length_filter_le _ _)

/-! ## GetDocumentCommand -/

/-- The `key_or_keys` constructor argument of `GetDocumentCommand`: a single
string key, a list of string keys, or `None`. -/
inductive KeyOrKeys where
  | pyNone : KeyOrKeys
  | single : String → KeyOrKeys
  | keyList : List String → KeyOrKeys
deriving Repr

structure GetDocumentCommand where
  url : Option String := none
  method : String := "GET"
  data : Option Json := none
  headers : List (String × String) := []
  is_read_request : Bool := true
  key_or_keys : KeyOrKeys
  includes : List String := []
  metadata_only : Bool := false
  force_read_from_master : Bool := false
deriving Repr

/-- The `&include=` segments prepended to the path when `includes` is truthy
(a non-empty list; `None` and `[]` are both falsy and contribute nothing). -/
def includesSegment (includes : List String) : String :=
  String.join (includes.map (fun item => "&include=" ++ Utils.quote_key item))

def GetDocumentCommand.create_request (c : GetDocumentCommand)
    (node : ServerNode) : GetDocumentCommand × Option PyErr :=
  match c.key_or_keys with
  | .pyNone => (c, some (.valueError "None Key is not valid"))
  | .single key =>
      let path := "docs?" ++ includesSegment c.includes
        ++ "&id=" ++ Utils.quote_key key
      ({ c with
          url := some (node.url ++ "/databases/" ++ node.database ++ "/" ++ path) },
        none)
  | .keyList keys =>
      let key_or_keys := orderedDictFromKeys keys
      let path := "docs?" ++ includesSegment c.includes
      let path := if c.metadata_only then path ++ "&metadata-only=True" else path
      if ((key_or_keys.map String.length).sum) > 1024 then
        let c := { c with method := "POST", data := some (.arr (key_or_keys.map .str)) }
        ({ c with
            url := some (node.url ++ "/databases/" ++ node.database ++ "/" ++ path) },
          none)
      else
        let path := path ++
          String.join (key_or_keys.map (fun item => "&id=" ++ Utils.quote_key item))
        ({ c with
            url := some (node.url ++ "/databases/" ++ node.database ++ "/" ++ path) },
          none)

def GetDocumentCommand.set_response (_c : GetDocumentCommand)
    (response : Option Response) : Except PyErr (Option Json) :=
  match response with
  | none => .ok none
  | some r =>
      match r.jsonBody with
      | none =>
          -- response.json() raised ValueError; caught and re-raised as below
          .error (.errorResponse (.str
            "Failed to load document from the database please check the connection to the server"))
      | some j =>
          if j.hasKey "Error" then .error (.errorResponse (j.get "Error"))
          else .ok (some j)

/-! ## DeleteDocumentCommand -/

structure DeleteDocumentCommand where
  url : Option String := none
  method : String := "DELETE"
  data : Option Json := none
  headers : List (String × String) := []
  key : PyVal
  etag : Option String := none
deriving Repr

def DeleteDocumentCommand.create_request (c : DeleteDocumentCommand)
    (node : ServerNode) : DeleteDocumentCommand × Option PyErr :=
  match c.key with
  | .pyNone => (c, some (.valueError "None Key is not valid"))
  | .other => (c, some (.valueError "key must be str"))
  | .str key =>
      let c := match c.etag with
        | some e => { c with headers := [("If-Match", formatQuotedPositional e)] }
        | none => c
      ({ c with
          url := some (node.url ++ "/databases/" ++ node.database
            ++ "/docs?id=" ++ Utils.quote_key key) },
        none)

def DeleteDocumentCommand.set_response (c : DeleteDocumentCommand)
    (response : Option Response) : Except PyErr (Option Json) :=
  match response with
  | none =>
      match logCall "info" ("Couldn't find The Document " ++ c.key.format) with
      | .error e => .error e
      | .ok _ => .ok none
  | some r =>
      if r.status_code ≠ 204 then
        match r.jsonBody with
        | none => .error (.valueError "No JSON object could be decoded")
        | some j =>
            if j.hasKey "Error" then .error (.errorResponse (j.get "Error"))
            else .error (.keyError "Error")
      else .ok none

/-! ## PutDocumentCommand -/

structure PutDocumentCommand where
  url : Option String := none
  method : String := "PUT"
  data : Option Json := none
  headers : List (String × String) := []
  key : PyVal
  document : Option Json := none
  etag : Option String := none
deriving Repr

/-- Lines 150-156 of `PutDocumentCommand.create_request`: the key/document
type checks and the final `data`/`url` assignments, reached only when the
etag block did not raise. -/
def PutDocumentCommand.createRequestAfterEtag (c : PutDocumentCommand)
    (node : ServerNode) : PutDocumentCommand × Option PyErr :=
  match c.key with
  | .str key =>
      match c.document with
      | some (.obj fields) =>
          let c := { c with data := some (.obj fields) }
          ({ c with
              url := some (node.url ++ "/databases/" ++ node.database
                ++ "/docs?id=" ++ key) },
            none)
      | _ => (c, some (.valueError "document and metadata must be dict"))
  | _ => (c, some (.valueError "key must be str"))

def PutDocumentCommand.create_request (c : PutDocumentCommand)
    (node : ServerNode) : PutDocumentCommand × Option PyErr :=
  let c := if c.document.isNone then { c with document := some (.obj []) } else c
  match c.etag with
  | some e =>
      -- self.headers = {"If-Match": "\"{etag}\"".format(self.etag)}: the
      -- right-hand side raises KeyError before headers is assigned
      (match formatQuotedNamedEtag e with
        | .error err => (c, some err)
        | .ok v => PutDocumentCommand.createRequestAfterEtag
            { c with headers := [("If-Match", v)] } node)
  | none => PutDocumentCommand.createRequestAfterEtag c node

def PutDocumentCommand.set_response (_c : PutDocumentCommand)
    (response : Option Response) : Except PyErr Json :=
  match response with
  | none => .error (.attributeError "NoneType object has no attribute json")
  | some r =>
      match r.jsonBody with
      | none =>
          -- response.json() raised ValueError; caught and re-raised as below
          .error (.errorResponse (.str
            "Failed to put document in the database please check the connection to the server"))
      | some j =>
          if j.hasKey "Error" then
            if j.hasKey "ActualEtag" then .error (.fetchConcurrency (j.get "Error"))
            else .error (.errorResponse (j.get "Error"))
          else .ok j

/-! ## BatchCommand -/

/-- A sub-command handed to `BatchCommand`.

Modelled from the spec: the sub-command objects (commands data) are external
to `src/`; spec §4.2 says each "must expose its own JSON serialization".
`has_command_attr` models `hasattr(command, 'command')` and `to_json` the
`command.to_json()` serialization. -/
structure SubCommand where
  has_command_attr : Bool
  to_json : Json
deriving Repr

structure BatchCommand where
  url : Option String := none
  method : String := "POST"
  data : Option Json := none
  headers : List (String × String) := []
  commands_array : List SubCommand
deriving Repr

/-- The loop of `BatchCommand.create_request`: append each sub-command's
serialization in submission order, raising on the first sub-command without a
`command` attribute. -/
def batchBuildData : List SubCommand → Except PyErr (List Json)
  | [] => .ok []
  | cmd :: rest =>
      if cmd.has_command_attr then
        match batchBuildData rest with
        | .ok tail => .ok (cmd.to_json :: tail)
        | .error e => .error e
      else .error (.valueError "Not a valid command")

def BatchCommand.create_request (c : BatchCommand) (node : ServerNode) :
    BatchCommand × Option PyErr :=
  match batchBuildData c.commands_array with
  | .error e => (c, some e)
  | .ok data =>
      let c := { c with
        url := some (node.url ++ "/databases/" ++ node.database ++ "/bulk_docs") }
      ({ c with data := some (.arr data) }, none)

def BatchCommand.set_response (_c : BatchCommand) (response : Option Response) :
    Except PyErr Json :=
  match response with
  | none => .error (.attributeError "NoneType object has no attribute json")
  | some r =>
      match r.jsonBody with
      | none =>
          -- json() raised ValueError, caught and wrapped
          .error (.invalidOperation "No JSON object could be decoded")
      | some j =>
          if j.hasKey "Error" then
            -- raise ValueError(response["Error"]), caught and wrapped
            .error (.invalidOperation "Error")
          else if j.hasKey "Results" then .ok (j.get "Results")
          else .error (.keyError "Results")

/-! ## PutIndexesCommand -/

/-- An index definition.

Modelled from the spec: `IndexDefinition` from `pyravendb.data.indexes` is
not under `src/`; spec §3 says it "has a mandatory non-empty name; serializes
to JSON".  `name` is optional here so that the constructor's `is None` check
is expressible. -/
structure IndexDefinition where
  name : Option String
  maps : List String := []
deriving Repr

/-- Modelled from the spec: the serialization of an `IndexDefinition`. -/
def IndexDefinition.to_json (d : IndexDefinition) : Json :=
  .obj [("Name", match d.name with | some n => .str n | none => .null),
        ("Maps", .arr (d.maps.map .str))]

structure PutIndexesCommand where
  url : Option String := none
  method : String := "PUT"
  data : Option Json := none
  headers : List (String × String) := []
  indexes_to_add : List Json
deriving Repr

/-- The validation loop in `PutIndexesCommand.__init__`: every argument must
be an `IndexDefinition` (guaranteed here by typing) with a name that is not
`None`; the serialized definitions are accumulated in order. -/
def putIndexesValidate : List IndexDefinition → Except PyErr (List Json)
  | [] => .ok []
  | d :: rest =>
      match d.name with
      | none => .error (.valueError "None Index name is not valid")
      | some _ =>
          match putIndexesValidate rest with
          | .ok tail => .ok (d.to_json :: tail)
          | .error e => .error e

/-- `PutIndexesCommand.__init__(*indexes_to_add)`: raises during construction
if validation fails, otherwise yields the command with the serialized
definitions stored.  (The `indexes_to_add is None` check is dead: a `*args`
tuple is never `None`.) -/
def PutIndexesCommand.init (indexes_to_add : List IndexDefinition) :
    Except PyErr PutIndexesCommand :=
  match putIndexesValidate indexes_to_add with
  | .error e => .error e
  | .ok serialized => .ok { indexes_to_add := serialized }

/-- `True` exactly when `PutIndexesCommand(*defs)` returns normally (does not
raise). -/
def putIndexesInitSucceeds (defs : List IndexDefinition) : Bool :=
  match PutIndexesCommand.init defs with
  | .ok _ => true
  | .error _ => false

def PutIndexesCommand.create_request (c : PutIndexesCommand)
    (node : ServerNode) : PutIndexesCommand × Option PyErr :=
  let c := { c with
    url := some (node.url ++ "/databases/" ++ node.database ++ "/indexes") }
  ({ c with data := some (.arr c.indexes_to_add) }, none)

/-! ## GetIndexCommand and DeleteIndexCommand -/

structure GetIndexCommand where
  url : Option String := none
  method : String := "GET"
  data : Option Json := none
  headers : List (String × String) := []
  is_read_request : Bool := true
  index_name : String
  force_read_from_master : Bool := false
deriving Repr

def GetIndexCommand.create_request (c : GetIndexCommand) (node : ServerNode) :
    GetIndexCommand × Option PyErr :=
  let nameSegment :=
    if c.index_name ≠ "" then "name=" ++ Utils.quote_key c.index_name true else ""
  ({ c with
      url := some (node.url ++ "/databases/" ++ node.database
        ++ "/indexes?" ++ nameSegment) },
    none)

def GetIndexCommand.set_response (_c : GetIndexCommand)
    (response : Option Response) : Except PyErr (Option Json) :=
  match response with
  | none => .ok none
  | some r =>
      match r.jsonBody with
      | none => .error (.valueError "No JSON object could be decoded")
      | some j =>
          if j.hasKey "Results" then .ok (some (j.get "Results"))
          else .error (.keyError "Results")

structure DeleteIndexCommand where
  url : Option String := none
  method : String := "DELETE"
  data : Option Json := none
  headers : List (String × String) := []
  index_name : String
deriving Repr

def DeleteIndexCommand.create_request (c : DeleteIndexCommand)
    (node : ServerNode) : DeleteIndexCommand × Option PyErr :=
  if c.index_name = "" then
    (c, some (.valueError "None or empty index_name is invalid"))
  else
    ({ c with
        url := some (node.url ++ "/databases/" ++ node.database
          ++ "/indexes?name=" ++ Utils.quote_key c.index_name true) },
      none)

def DeleteIndexCommand.set_response (_c : DeleteIndexCommand)
    (_response : Option Response) : Except PyErr (Option Json) :=
  .ok none

/-! ## PatchCommand -/

/-- A patch request.

Modelled from the spec: `PatchRequest` from `pyravendb.data.patches` is not
under `src/`; spec §3 says it is "a script plus optional values, serializes
to a JSON-able mapping". -/
structure PatchRequest where
  script : String
  values : List (String × Json) := []
deriving Repr

/-- Modelled from the spec: the serialization of a `PatchRequest`. -/
def PatchRequest.to_json (p : PatchRequest) : Json :=
  .obj [("Script", .str p.script), ("Values", .obj p.values)]

structure PatchCommand where
  url : Option String := none
  method : String := "PATCH"
  data : Option Json := none
  headers : List (String × String) := []
  key : Option String
  patch : Option PatchRequest
  etag : Option String := none
  patch_if_missing : Option PatchRequest := none
  skip_patch_if_etag_mismatch : Bool := false
  return_debug_information : Bool := false
deriving Repr

/-- Lines 375-377 of `PatchCommand.create_request`: the final `url` and
`data` assignments, reached only when no precondition raised. -/
def PatchCommand.createRequestFinish (c : PatchCommand) (node : ServerNode)
    (path : String) (patch : PatchRequest) : PatchCommand × Option PyErr :=
  let c := { c with
    url := some (node.url ++ "/databases/" ++ node.database ++ "/" ++ path) }
  ({ c with data := some (.obj
      [("Patch", patch.to_json),
       ("PatchIfMissing", match c.patch_if_missing with
          | some pim => pim.to_json
          | none => .null)]) },
    none)

def PatchCommand.create_request (c : PatchCommand) (node : ServerNode) :
    PatchCommand × Option PyErr :=
  match c.key with
  | none => (c, some (.valueError "None key is invalid"))
  | some key =>
    match c.patch with
    | none => (c, some (.valueError "None patch is invalid"))
    | some patch =>
      if (match c.patch_if_missing with
          | some pim => pim.script == ""
          | none => false) then
        (c, some (.valueError "None or Empty script is invalid"))
      else
        let path := "docs?id=" ++ Utils.quote_key key
        let path := if c.skip_patch_if_etag_mismatch then
            path ++ "&skipPatchIfEtagMismatch=true" else path
        let path := if c.return_debug_information then
            path ++ "&debug=true" else path
        match c.etag with
        | some e =>
            -- "\"{etag}\"".format(self.etag) raises KeyError before headers
            -- is assigned, hence before url/data assignment
            (match formatQuotedNamedEtag e with
              | .error err => (c, some err)
              | .ok v =>
                  let c := { c with headers := [("If-Match", v)] }
                  PatchCommand.createRequestFinish c node path patch)
        | none => PatchCommand.createRequestFinish c node path patch

def PatchCommand.set_response (_c : PatchCommand) (response : Option Response) :
    Except PyErr (Option Json) :=
  match response with
  | none => .ok none
  | some r =>
      if r.status_code = 200 then
        match r.jsonBody with
        | some j => .ok (some j)
        | none => .error (.valueError "No JSON object could be decoded")
      else .ok none

/-! ## QueryCommand -/

/-- The query default-operator enum.

Modelled from the spec: `QueryOperator` from `pyravendb.data.indexes` is not
under `src/`; spec §3 lists the operators AND and OR, AND being emitted into
the URL as its value. -/
inductive QueryOperator where
  | AND : QueryOperator
  | OR : QueryOperator
deriving Repr, DecidableEq

def QueryOperator.value : QueryOperator → String
  | .AND => "AND"
  | .OR => "OR"

/-- A query definition.

Modelled from the spec: `IndexQuery` from `pyravendb.data.indexes` is not
under `src/`; spec §3: "query string, page_size, default_operator (AND|OR),
sort_hints, sort_fields, fetch fields, optional non-stale-results timeout". -/
structure IndexQuery where
  query : String := ""
  page_size : Nat := 128
  default_operator : QueryOperator := .OR
  sort_hints : List String := []
  sort_fields : List String := []
  fetch : List String := []
  wait_for_non_stale_results_timeout : Option String := none
deriving Repr

/-- The conventions object consumed by `QueryCommand`.

Modelled from the spec: the convention/configuration object is not under
`src/`; only its `max_length_of_query_using_get_url` threshold is read. -/
structure DocumentConvention where
  max_length_of_query_using_get_url : Nat := 1024 + 512
deriving Repr

structure QueryCommand where
  url : Option String := none
  method : String := "GET"
  data : Option Json := none
  headers : List (String × String) := []
  is_read_request : Bool := true
  index_name : String
  index_query : IndexQuery
  conventions : DocumentConvention
  includes : List String := []
  metadata_only : Bool := false
  index_entries_only : Bool := false
  force_read_from_master : Bool := false
deriving Repr

/-- The query-string path assembled by `QueryCommand.create_request`
(lines 428-451 of the source). -/
def queryPath (c : QueryCommand) : String :=
  let iq := c.index_query
  let path := "queries/" ++ Utils.quote_key c.index_name true
    ++ "?&pageSize=" ++ toString iq.page_size
  let path := if iq.default_operator = QueryOperator.AND then
      path ++ "&operator=" ++ iq.default_operator.value else path
  let path := if iq.query ≠ "" then
      path ++ "&query=" ++ Utils.quote_key iq.query else path
  let path := path ++ String.join (iq.sort_hints.map (fun hint => "&" ++ hint))
  let path := path ++ String.join (iq.sort_fields.map (fun field => "&sort=" ++ field))
  let path := path ++ String.join (iq.fetch.map (fun item => "&fetch=" ++ item))
  let path := if c.metadata_only then path ++ "&metadata-only=true" else path
  let path := if c.index_entries_only then path ++ "&debug=entries" else path
  let path := path ++ String.join (c.includes.map (fun item => "&include=" ++ item))
  match iq.wait_for_non_stale_results_timeout with
  | some t => path ++ "&waitForNonStaleResultsTimeout=" ++ t
  | none => path

def QueryCommand.create_request (c : QueryCommand) (node : ServerNode) :
    QueryCommand × Option PyErr :=
  if c.index_name = "" then
    (c, some (.valueError "index_name cannot be None or empty"))
  else
    let path := queryPath c
    let c := if c.index_query.query.length ≤
        c.conventions.max_length_of_query_using_get_url then
      { c with method := "POST" } else c
    ({ c with
        url := some (node.url ++ "/databases/" ++ node.database ++ "/" ++ path) },
      none)

def QueryCommand.set_response (c : QueryCommand) (response : Option Response) :
    Except PyErr Json :=
  match response with
  | none => .error (.errorResponse (.str ("Could not find index " ++ c.index_name)))
  | some r =>
      match r.jsonBody with
      | none => .error (.valueError "No JSON object could be decoded")
      | some j =>
          if j.hasKey "Error" then .error (.errorResponse (j.get "Error"))
          else .ok j

/-! ## GetStatisticsCommand and GetTopologyCommand -/

structure GetStatisticsCommand where
  url : Option String := none
  method : String := "GET"
  data : Option Json := none
  headers : List (String × String) := []
deriving Repr

def GetStatisticsCommand.create_request (c : GetStatisticsCommand)
    (node : ServerNode) : GetStatisticsCommand × Option PyErr :=
  ({ c with
      url := some (node.url ++ "/databases/" ++ node.database ++ "/stats") },
    none)

def GetStatisticsCommand.set_response (_c : GetStatisticsCommand)
    (response : Option Response) : Except PyErr (Option Json) :=
  match response with
  | none => .ok none
  | some r =>
      if r.status_code = 200 then
        match r.jsonBody with
        | some j => .ok (some j)
        | none => .error (.valueError "No JSON object could be decoded")
      else .ok none

structure GetTopologyCommand where
  url : Option String := none
  method : String := "GET"
  data : Option Json := none
  headers : List (String × String) := []
  is_read_request : Bool := true
  avoid_failover : Bool := true
deriving Repr

def GetTopologyCommand.create_request (c : GetTopologyCommand)
    (node : ServerNode) : GetTopologyCommand × Option PyErr :=
  ({ c with
      url := some (node.url ++ "/databases/" ++ node.database
        ++ "/topology?url=" ++ node.url) },
    none)

/-- `GetTopologyCommand.set_response` reads `response.status_code` without a
`None` guard, so a `None` response raises `AttributeError`; on a 400 it calls
`log.debug(response.json()["Error"])`, and the module-level `log` is `None`. -/
def GetTopologyCommand.set_response (_c : GetTopologyCommand)
    (response : Option Response) : Except PyErr (Option Json) :=
  match response with
  | none => .error (.attributeError "NoneType object has no attribute status_code")
  | some r =>
      if r.status_code = 200 then
        match r.jsonBody with
        | some j => .ok (some j)
        | none => .error (.valueError "No JSON object could be decoded")
      else if r.status_code = 400 then
        match r.jsonBody with
        | none => .error (.valueError "No JSON object could be decoded")
        | some j =>
            if j.hasKey "Error" then
              match logCall "debug" "Error" with
              | .error e => .error e
              | .ok _ => .ok none
            else .error (.keyError "Error")
      else .ok none

/-! ## PatchByIndexCommand and DeleteByIndexCommand -/

/-- The options object of the by-index commands.

Modelled from the spec: `QueryOperationOptions` is not under `src/`; spec
§4.3 mentions "optional operation options (e.g., allow-stale,
max-ops-per-second)". -/
structure QueryOperationOptions where
  allow_stale : Bool := false
  max_ops_per_sec : Option Nat := none
deriving Repr

namespace Utils

/-- Modelled from the spec: `Utils.build_path` from `pyravendb.tools.utils`
is not under `src/`.  Spec §4.3: each by-index command "builds a URL from
index name + serialized query + optional operation options"; §6: dynamic
path segments are percent-encoded. -/
def build_path (index_name : String) (query : IndexQuery)
    (options : Option QueryOperationOptions) : String :=
  let path := quote_key index_name true ++ "?&query=" ++ quote_key query.query
  match options with
  | none => path
  | some o =>
      let path := path ++ "&allowStale="
        ++ (if o.allow_stale then "true" else "false")
      match o.max_ops_per_sec with
      | some m => path ++ "&maxOpsPerSec=" ++ toString m
      | none => path

end Utils

/-- The dynamically typed `query_to_update` argument of
`PatchByIndexCommand`: an `IndexQuery`, or some other object that the
`isinstance` check rejects. -/
inductive QueryArg where
  | indexQuery : IndexQuery → QueryArg
  | other : QueryArg
deriving Repr

/-- The dynamically typed `patch` field of `PatchByIndexCommand`: initially
`None`, a `PatchRequest`, or some other truthy object (rejected by the
`isinstance` check); `create_request` overwrites a `PatchRequest` with its
JSON serialization. -/
inductive PatchArg where
  | patchRequest : PatchRequest → PatchArg
  | jsonVal : Json → PatchArg
  | otherTruthy : PatchArg
deriving Repr

structure PatchByIndexCommand where
  url : Option String := none
  method : String := "PATCH"
  data : Option Json := none
  headers : List (String × String) := []
  index_name : String
  query_to_update : QueryArg
  patch : Option PatchArg := none
  options : Option QueryOperationOptions := none
deriving Repr

def PatchByIndexCommand.create_request (c : PatchByIndexCommand)
    (node : ServerNode) : PatchByIndexCommand × Option PyErr :=
  match c.query_to_update with
  | .other => (c, some (.valueError "query must be IndexQuery Type"))
  | .indexQuery query =>
      match c.patch with
      | some (.patchRequest p) =>
          let c := { c with patch := some (.jsonVal p.to_json) }
          let c := { c with
            url := some (node.url ++ "/databases/" ++ node.database ++ "/"
              ++ Utils.build_path c.index_name query c.options) }
          ({ c with data := some p.to_json }, none)
      | some _ =>
          (c, some (.valueError "scripted_patch must be ScriptedPatchRequest Type"))
      | none =>
          -- self.patch is falsy: no serialization; self.data = self.patch = None
          let c := { c with
            url := some (node.url ++ "/databases/" ++ node.database ++ "/"
              ++ Utils.build_path c.index_name query c.options) }
          ({ c with data := none }, none)

structure DeleteByIndexCommand where
  url : Option String := none
  method : String := "DELETE"
  data : Option Json := none
  headers : List (String × String) := []
  index_name : String
  query : IndexQuery
  options : Option QueryOperationOptions := none
deriving Repr

def DeleteByIndexCommand.create_request (c : DeleteByIndexCommand)
    (node : ServerNode) : DeleteByIndexCommand × Option PyErr :=
  ({ c with
      url := some (node.url ++ "/databases/" ++ node.database ++ "/"
        ++ Utils.build_path c.index_name c.query c.options) },
    none)

/-! ## GetOperationStateCommand -/

structure GetOperationStateCommand where
  url : Option String := none
  method : String := "GET"
  data : Option Json := none
  headers : List (String × String) := []
  id : String
deriving Repr

def GetOperationStateCommand.create_request (c : GetOperationStateCommand)
    (node : ServerNode) : GetOperationStateCommand × Option PyErr :=
  ({ c with
      url := some (node.url ++ "/databases/" ++ node.database
        ++ "/operations/state?id=" ++ c.id) },
    none)

/-! ## CreateDatabaseCommand and DeleteDatabaseCommand -/

/-- A database configuration document.

Modelled from the spec: `DatabaseDocument` is not under `src/`; spec §4.5
reads its `settings` mapping and its `database_id`, and serializes it as the
request body. -/
structure DatabaseDocument where
  database_id : String
  settings : List (String × Json) := []
deriving Repr

/-- Modelled from the spec: the serialization of a `DatabaseDocument`. -/
def DatabaseDocument.to_json (d : DatabaseDocument) : Json :=
  .obj [("Id", .str d.database_id), ("Settings", .obj d.settings)]

namespace Utils

/-- Modelled from the spec: `Utils.name_validation` from
`pyravendb.tools.utils` is not under `src/`.  Spec §4.5: the derived bare
database name is validated "against naming rules"; modelled as raising on an
empty name (the exact rules do not matter to the claims: what matters is
that a validation failure raises before the URL is built). -/
def name_validation (name : String) : Except PyErr Unit :=
  if name = "" then .error (.valueError "Please provide a valid database name")
  else .ok ()

end Utils

structure CreateDatabaseCommand where
  url : Option String := none
  method : String := "PUT"
  data : Option Json := none
  headers : List (String × String) := []
  database_document : DatabaseDocument
deriving Repr

def CreateDatabaseCommand.create_request (c : CreateDatabaseCommand)
    (node : ServerNode) : CreateDatabaseCommand × Option PyErr :=
  if c.database_document.settings.any (fun p => p.1 == "Raven/DataDir") then
    let db_name := c.database_document.database_id.replace "Raven/Databases/" ""
    match Utils.name_validation db_name with
    | .error e => (c, some e)
    | .ok _ =>
        let c := { c with
          url := some (node.url ++ "/admin/databases?name="
            ++ Utils.quote_key db_name) }
        ({ c with data := some c.database_document.to_json }, none)
  else (c, some (.invalidOperation "The Raven/DataDir setting is mandatory"))

structure DeleteDatabaseCommand where
  url : Option String := none
  method : String := "DELETE"
  data : Option Json := none
  headers : List (String × String) := []
  name : String
  hard_delete : Bool := false
deriving Repr

def DeleteDatabaseCommand.create_request (c : DeleteDatabaseCommand)
    (node : ServerNode) : DeleteDatabaseCommand × Option PyErr :=
  -- the source strips the prefix "Rave/Databases/" (sic, as written there)
  let db_name := c.name.replace "Rave/Databases/" ""
  let u := node.url ++ "/admin/databases?name=" ++ Utils.quote_key db_name
  let u := if c.hard_delete then u ++ "&hard-delete=true" else u
  ({ c with url := some u }, none)

/-! ## The polymorphic command view

`Cmd` packages all sixteen concrete command classes of the module behind
the abstract `RavenCommand` interface, so that properties quantified over
"every command" are one statement. -/

inductive Cmd where
  | getDocument : GetDocumentCommand → Cmd
  | deleteDocument : DeleteDocumentCommand → Cmd
  | putDocument : PutDocumentCommand → Cmd
  | batch : BatchCommand → Cmd
  | putIndexes : PutIndexesCommand → Cmd
  | getIndex : GetIndexCommand → Cmd
  | deleteIndex : DeleteIndexCommand → Cmd
  | patchByIndex : PatchByIndexCommand → Cmd
  | deleteByIndex : DeleteByIndexCommand → Cmd
  | patch : PatchCommand → Cmd
  | query : QueryCommand → Cmd
  | getStatistics : GetStatisticsCommand → Cmd
  | getTopology : GetTopologyCommand → Cmd
  | getOperationState : GetOperationStateCommand → Cmd
  | createDatabase : CreateDatabaseCommand → Cmd
  | deleteDatabase : DeleteDatabaseCommand → Cmd
deriving Repr

/-- The base-class `url` field of a command. -/
def Cmd.url : Cmd → Option String
  | .getDocument c => c.url
  | .deleteDocument c => c.url
  | .putDocument c => c.url
  | .batch c => c.url
  | .putIndexes c => c.url
  | .getIndex c => c.url
  | .deleteIndex c => c.url
  | .patchByIndex c => c.url
  | .deleteByIndex c => c.url
  | .patch c => c.url
  | .query c => c.url
  | .getStatistics c => c.url
  | .getTopology c => c.url
  | .getOperationState c => c.url
  | .createDatabase c => c.url
  | .deleteDatabase c => c.url

/-- The base-class `data` field of a command. -/
def Cmd.data : Cmd → Option Json
  | .getDocument c => c.data
  | .deleteDocument c => c.data
  | .putDocument c => c.data
  | .batch c => c.data
  | .putIndexes c => c.data
  | .getIndex c => c.data
  | .deleteIndex c => c.data
  | .patchByIndex c => c.data
  | .deleteByIndex c => c.data
  | .patch c => c.data
  | .query c => c.data
  | .getStatistics c => c.data
  | .getTopology c => c.data
  | .getOperationState c => c.data
  | .createDatabase c => c.data
  | .deleteDatabase c => c.data

/-- Virtual dispatch of `create_request` over the embedded commands. -/
def Cmd.create_request (cmd : Cmd) (node : ServerNode) : Cmd × Option PyErr :=
  match cmd with
  | .getDocument c => let r := c.create_request node; (.getDocument r.1, r.2)
  | .deleteDocument c => let r := c.create_request node; (.deleteDocument r.1, r.2)
  | .putDocument c => let r := c.create_request node; (.putDocument r.1, r.2)
  | .batch c => let r := c.create_request node; (.batch r.1, r.2)
  | .putIndexes c => let r := c.create_request node; (.putIndexes r.1, r.2)
  | .getIndex c => let r := c.create_request node; (.getIndex r.1, r.2)
  | .deleteIndex c => let r := c.create_request node; (.deleteIndex r.1, r.2)
  | .patchByIndex c => let r := c.create_request node; (.patchByIndex r.1, r.2)
  | .deleteByIndex c => let r := c.create_request node; (.deleteByIndex r.1, r.2)
  | .patch c => let r := c.create_request node; (.patch r.1, r.2)
  | .query c => let r := c.create_request node; (.query r.1, r.2)
  | .getStatistics c => let r := c.create_request node; (.getStatistics r.1, r.2)
  | .getTopology c => let r := c.create_request node; (.getTopology r.1, r.2)
  | .getOperationState c =>
      let r := c.create_request node; (.getOperationState r.1, r.2)
  | .createDatabase c => let r := c.create_request node; (.createDatabase r.1, r.2)
  | .deleteDatabase c => let r := c.create_request node; (.deleteDatabase r.1, r.2)

/-! ## Helper lemmas -/

lemma orderedDictFromKeys_go (l : List String) : ∀ acc : List String,
    l.foldl (fun acc k => if k ∈ acc then acc else acc ++ [k]) acc
      = acc ++ firstSeenDedup (l.filter (fun a => decide (a ∉ acc))) := by
  induction l with
  | nil => intro acc; simp [firstSeenDedup]
  | cons x l ih =>
    intro acc
    by_cases hx : x ∈ acc
    · rw [List.foldl_cons]
      simp only [if_pos hx]
      rw [ih acc, List.filter_cons]
      simp [hx]
    · rw [List.foldl_cons]
      simp only [if_neg hx]
      rw [ih (acc ++ [x]), List.filter_cons]
      have hpx : decide (x ∉ acc) = true := by simp [hx]
      rw [if_pos hpx]
      rw [firstSeenDedup]
      have hfilters : l.filter (fun a => decide (a ∉ acc ++ [x]))
          = (l.filter (fun a => decide (a ∉ acc))).filter (fun a => decide (a ≠ x)) := by
        rw [List.filter_filter]
        apply List.filter_congr
        intro a _
        by_cases h1 : a ∈ acc <;> by_cases h2 : a = x <;>
          simp [h1, h2]
      rw [hfilters]
      simp [List.append_assoc]

lemma orderedDictFromKeys_eq_firstSeenDedup (l : List String) :
    orderedDictFromKeys l = firstSeenDedup l := by
  unfold orderedDictFromKeys
  rw [orderedDictFromKeys_go l []]
  simp

lemma isUnreserved_hexDigit (n : Nat) : isUnreserved (hexDigit n) = true := by
  unfold hexDigit
  split <;> rfl

lemma all_safe_percentEncodeChar (b : Bool) (ch : Char) :
    (percentEncodeChar b ch).all
      (fun c => isUnreserved c || c == '%' || c == '/') = true := by
  unfold percentEncodeChar
  split
  · rename_i h
    simp only [Bool.or_eq_true, Bool.and_eq_true, beq_iff_eq] at h
    rcases h with h | ⟨_, h⟩ <;> simp [h]
  · simp [isUnreserved_hexDigit]

lemma all_flatten_of (p : Char → Bool) : ∀ ls : List (List Char),
    (∀ xs ∈ ls, xs.all p = true) → ls.flatten.all p = true := by
  intro ls h
  induction ls with
  | nil => rfl
  | cons xs rest ih =>
    simp only [List.flatten_cons, List.all_append, Bool.and_eq_true]
    exact ⟨h xs (by simp), ih (fun ys hys => h ys (by simp [hys]))⟩

lemma all_safe_quote_key (s : String) (b : Bool) :
    (Utils.quote_key s b).data.all
      (fun ch => isUnreserved ch || ch == '%' || ch == '/') = true := by
  unfold Utils.quote_key
  apply all_flatten_of
  intro xs hxs
  rcases List.mem_map.mp hxs with ⟨ch, _, rfl⟩
  exact all_safe_percentEncodeChar b ch

lemma batchBuildData_ok (cmds : List SubCommand)
    (h : ∀ cmd ∈ cmds, cmd.has_command_attr = true) :
    batchBuildData cmds = .ok (cmds.map SubCommand.to_json) := by
  induction cmds with
  | nil => rfl
  | cons cmd rest ih =>
    unfold batchBuildData
    rw [if_pos (h cmd (by simp))]
    rw [ih (fun x hx => h x (by simp [hx]))]
    rfl

lemma getDocument_preserve (c : GetDocumentCommand) (node : ServerNode)
    (h : (c.create_request node).2.isSome = true) :
    (c.create_request node).1.url = c.url
    ∧ (c.create_request node).1.data = c.data := by
  obtain ⟨url, method, data, headers, irr, kk, inc, mo, frm⟩ := c
  cases kk <;> simp_all [GetDocumentCommand.create_request]
  split at h <;> simp_all

lemma deleteDocument_preserve (c : DeleteDocumentCommand) (node : ServerNode)
    (h : (c.create_request node).2.isSome = true) :
    (c.create_request node).1.url = c.url
    ∧ (c.create_request node).1.data = c.data := by
  obtain ⟨url, method, data, headers, key, etag⟩ := c
  cases key <;> cases etag <;>
    simp_all [DeleteDocumentCommand.create_request]

lemma putDocument_preserve (c : PutDocumentCommand) (node : ServerNode)
    (h : (c.create_request node).2.isSome = true) :
    (c.create_request node).1.url = c.url
    ∧ (c.create_request node).1.data = c.data := by
  obtain ⟨url, method, data, headers, key, document, etag⟩ := c
  cases etag <;> cases key <;>
    rcases document with _ | (_ | _ | _ | _ | _ | _) <;>
    simp_all [PutDocumentCommand.create_request,
      PutDocumentCommand.createRequestAfterEtag, formatQuotedNamedEtag]

lemma batch_preserve (c : BatchCommand) (node : ServerNode)
    (h : (c.create_request node).2.isSome = true) :
    (c.create_request node).1.url = c.url
    ∧ (c.create_request node).1.data = c.data := by
  obtain ⟨url, method, data, headers, cmds⟩ := c
  rcases hb : batchBuildData cmds with _ | e <;>
    simp_all [BatchCommand.create_request]

lemma putIndexes_preserve (c : PutIndexesCommand) (node : ServerNode)
    (h : (c.create_request node).2.isSome = true) :
    (c.create_request node).1.url = c.url
    ∧ (c.create_request node).1.data = c.data := by
  simp [PutIndexesCommand.create_request] at h

lemma getIndex_preserve (c : GetIndexCommand) (node : ServerNode)
    (h : (c.create_request node).2.isSome = true) :
    (c.create_request node).1.url = c.url
    ∧ (c.create_request node).1.data = c.data := by
  simp [GetIndexCommand.create_request] at h

lemma deleteIndex_preserve (c : DeleteIndexCommand) (node : ServerNode)
    (h : (c.create_request node).2.isSome = true) :
    (c.create_request node).1.url = c.url
    ∧ (c.create_request node).1.data = c.data := by
  obtain ⟨url, method, data, headers, name⟩ := c
  by_cases hn : name = "" <;>
    simp_all [DeleteIndexCommand.create_request]

lemma patch_preserve (c : PatchCommand) (node : ServerNode)
    (h : (c.create_request node).2.isSome = true) :
    (c.create_request node).1.url = c.url
    ∧ (c.create_request node).1.data = c.data := by
  obtain ⟨url, method, data, headers, key, patch, etag, pim, skip, dbg⟩ := c
  cases key <;> cases patch <;> cases etag <;>
    simp_all [PatchCommand.create_request, PatchCommand.createRequestFinish,
      formatQuotedNamedEtag]
  all_goals (split at h <;> simp_all)

lemma query_preserve (c : QueryCommand) (node : ServerNode)
    (h : (c.create_request node).2.isSome = true) :
    (c.create_request node).1.url = c.url
    ∧ (c.create_request node).1.data = c.data := by
  obtain ⟨url, method, data, headers, irr, name, iq, conv, inc, mo, ieo, frm⟩ := c
  by_cases hn : name = "" <;>
    simp_all [QueryCommand.create_request]

lemma patchByIndex_preserve (c : PatchByIndexCommand) (node : ServerNode)
    (h : (c.create_request node).2.isSome = true) :
    (c.create_request node).1.url = c.url
    ∧ (c.create_request node).1.data = c.data := by
  obtain ⟨url, method, data, headers, name, qtu, patch, opts⟩ := c
  cases qtu <;> rcases patch with _ | (p | j | t) <;>
    simp_all [PatchByIndexCommand.create_request]

lemma deleteByIndex_preserve (c : DeleteByIndexCommand) (node : ServerNode)
    (h : (c.create_request node).2.isSome = true) :
    (c.create_request node).1.url = c.url
    ∧ (c.create_request node).1.data = c.data := by
  simp [DeleteByIndexCommand.create_request] at h

lemma getOperationState_preserve (c : GetOperationStateCommand)
    (node : ServerNode) (h : (c.create_request node).2.isSome = true) :
    (c.create_request node).1.url = c.url
    ∧ (c.create_request node).1.data = c.data := by
  simp [GetOperationStateCommand.create_request] at h

lemma createDatabase_preserve (c : CreateDatabaseCommand) (node : ServerNode)
    (h : (c.create_request node).2.isSome = true) :
    (c.create_request node).1.url = c.url
    ∧ (c.create_request node).1.data = c.data := by
  obtain ⟨url, method, data, headers, dd⟩ := c
  by_cases hs : dd.settings.any (fun p => p.1 == "Raven/DataDir") = true <;>
    simp_all [CreateDatabaseCommand.create_request, Utils.name_validation]
  split at h <;> simp_all

lemma deleteDatabase_preserve (c : DeleteDatabaseCommand) (node : ServerNode)
    (h : (c.create_request node).2.isSome = true) :
    (c.create_request node).1.url = c.url
    ∧ (c.create_request node).1.data = c.data := by
  simp [DeleteDatabaseCommand.create_request] at h

lemma getStatistics_preserve (c : GetStatisticsCommand) (node : ServerNode)
    (h : (c.create_request node).2.isSome = true) :
    (c.create_request node).1.url = c.url
    ∧ (c.create_request node).1.data = c.data := by
  simp [GetStatisticsCommand.create_request] at h

lemma getTopology_preserve (c : GetTopologyCommand) (node : ServerNode)
    (h : (c.create_request node).2.isSome = true) :
    (c.create_request node).1.url = c.url
    ∧ (c.create_request node).1.data = c.data := by
  simp [GetTopologyCommand.create_request] at h

/-! ## Claim theorems -/

/-- C1: the claim says `PutDocumentCommand.create_request` with a non-None
etag adds an `If-Match` header carrying the etag.  The code instead evaluates
`"\"{etag}\"".format(self.etag)`, a named-field template with a positional
argument, which raises `KeyError: 'etag'`; no header is added and the call
fails.  With etag `None` no `If-Match` header is added, as claimed.  Shown
here by evaluating the embedded code at a concrete command. -/
theorem C1_putdocument_etag_keyerror :
    (PutDocumentCommand.create_request
      { key := .str "products/1", document := some (.obj []), etag := some "abc" }
      { url := "http://srv", database := "db" }).2
      = some (.keyError "etag")
    ∧ (PutDocumentCommand.create_request
      { key := .str "products/1", document := some (.obj []), etag := some "abc" }
      { url := "http://srv", database := "db" }).1.headers = []
    ∧ (PutDocumentCommand.create_request
      { key := .str "products/1", document := some (.obj []), etag := none }
      { url := "http://srv", database := "db" }).1.headers = [] :=
  ⟨rfl, rfl, rfl⟩

/-- C2: the claim says `set_response(None)` does not raise for GetDocument,
DeleteDocument, GetIndex, GetTopology, GetStatistics and Patch commands.  It
holds for four of them, but `DeleteDocumentCommand.set_response(None)` calls
`log.info(...)` where the module-level `log = logging.basicConfig(...)` is
`None`, raising `AttributeError`; and `GetTopologyCommand.set_response`
dereferences `response.status_code` without a `None` guard, also raising
`AttributeError`.  Shown by evaluating the embedded code at `None`. -/
theorem C2_set_response_none_behaviour :
    GetDocumentCommand.set_response { key_or_keys := .single "docs/1" } none = .ok none
    ∧ GetIndexCommand.set_response { index_name := "idx" } none = .ok none
    ∧ GetStatisticsCommand.set_response {} none = .ok none
    ∧ PatchCommand.set_response
        { key := some "docs/1", patch := some { script := "s" } } none = .ok none
    ∧ DeleteDocumentCommand.set_response { key := .str "docs/1" } none
        = .error (.attributeError "NoneType object has no attribute info")
    ∧ GetTopologyCommand.set_response {} none
        = .error (.attributeError "NoneType object has no attribute status_code") :=
  ⟨rfl, rfl, rfl, rfl, rfl, rfl⟩

/-- C3: for a `QueryCommand` (constructed with method GET) whose index name
is non-empty, `create_request` succeeds, switches the method to POST exactly
when the query text length is at most the conventions'
`max_length_of_query_using_get_url`, and leaves the method as constructed
(GET) when the length is above the threshold. -/
theorem C3_query_method_post_iff_short (c : QueryCommand) (node : ServerNode)
    (hname : c.index_name ≠ "") :
    (QueryCommand.create_request c node).2 = none
    ∧ (c.index_query.query.length ≤ c.conventions.max_length_of_query_using_get_url →
        (QueryCommand.create_request c node).1.method = "POST")
    ∧ (c.conventions.max_length_of_query_using_get_url < c.index_query.query.length →
        (QueryCommand.create_request c node).1.method = c.method) := by
  unfold QueryCommand.create_request
  rw [if_neg hname]
  refine ⟨rfl, fun hle => ?_, fun hgt => ?_⟩
  · simp [if_pos hle]
  · simp [if_neg (Nat.not_le_of_lt hgt)]

/-- C3 witness: a 3-character query against the default 1536 threshold gives
POST; a 3-character query against a configured threshold of 2 gives GET (the
constructed method). -/
theorem C3_query_method_post_iff_short_witness :
    (QueryCommand.create_request
      { index_name := "idx", index_query := { query := "abc" },
        conventions := {} }
      { url := "http://srv", database := "db" }).1.method = "POST"
    ∧ (QueryCommand.create_request
      { index_name := "idx", index_query := { query := "abc" },
        conventions := { max_length_of_query_using_get_url := 2 } }
      { url := "http://srv", database := "db" }).1.method = "GET" :=
  ⟨(C3_query_method_post_iff_short _ _ (by decide)).2.1 (by decide),
   (C3_query_method_post_iff_short
      { index_name := "idx", index_query := { query := "abc" },
        conventions := { max_length_of_query_using_get_url := 2 } }
      _ (by decide)).2.2 (by decide)⟩

/-- C4: for a `GetDocumentCommand` over a list of keys whose concatenated
length after deduplication exceeds 1024, `create_request` succeeds with
method POST, the deduplicated key list as a JSON array in the body, and a URL
that carries no id query-string parameters. -/
theorem C4_getdocument_long_keys_post (c : GetDocumentCommand)
    (node : ServerNode) (ks : List String)
    (hk : c.key_or_keys = .keyList ks)
    (hlen : 1024 < ((orderedDictFromKeys ks).map String.length).sum) :
    (GetDocumentCommand.create_request c node).2 = none
    ∧ (GetDocumentCommand.create_request c node).1.method = "POST"
    ∧ (GetDocumentCommand.create_request c node).1.data
        = some (.arr ((orderedDictFromKeys ks).map .str))
    ∧ (GetDocumentCommand.create_request c node).1.url
        = some (node.url ++ "/databases/" ++ node.database ++ "/"
            ++ (if c.metadata_only then
                  ("docs?" ++ includesSegment c.includes) ++ "&metadata-only=True"
                else "docs?" ++ includesSegment c.includes)) := by
  unfold GetDocumentCommand.create_request
  rw [hk]
  simp only [gt_iff_lt, if_pos hlen]
  exact ⟨trivial, trivial, trivial, trivial⟩

set_option maxRecDepth 8000 in
/-- C4 witness: a single key of 1025 characters exceeds the threshold. -/
theorem C4_getdocument_long_keys_post_witness :
    (GetDocumentCommand.create_request
      { key_or_keys := .keyList [String.mk (List.replicate 1025 'a')] }
      { url := "http://srv", database := "db" }).1.method = "POST" :=
  (C4_getdocument_long_keys_post _ _ [String.mk (List.replicate 1025 'a')]
    rfl (by simp [orderedDictFromKeys, String.length])).2.1

/-- C5: `GetDocumentCommand.create_request` deduplicates a key list keeping
the first occurrence of each key in order (`orderedDictFromKeys`, the
embedding of `OrderedDict.fromkeys`, agrees with the specification-side
`firstSeenDedup`); within the GET threshold every deduplicated key is placed
in the URL percent-encoded via `Utils.quote_key`, in first-seen order; a
single key is placed in the URL percent-encoded; and percent-encoding yields
only unreserved characters, percent signs, and (for the index-name variant)
slashes. -/
theorem C5_getdocument_key_encoding (c c1 : GetDocumentCommand)
    (node : ServerNode) (ks : List String) (k : String) (b : Bool)
    (hk : c.key_or_keys = .keyList ks)
    (hlen : ((orderedDictFromKeys ks).map String.length).sum ≤ 1024)
    (hk1 : c1.key_or_keys = .single k) :
    orderedDictFromKeys ks = firstSeenDedup ks
    ∧ (GetDocumentCommand.create_request c node).1.url
        = some (node.url ++ "/databases/" ++ node.database ++ "/"
            ++ ((if c.metadata_only then
                  ("docs?" ++ includesSegment c.includes) ++ "&metadata-only=True"
                else "docs?" ++ includesSegment c.includes)
              ++ String.join ((firstSeenDedup ks).map
                  (fun item => "&id=" ++ Utils.quote_key item))))
    ∧ (GetDocumentCommand.create_request c1 node).1.url
        = some (node.url ++ "/databases/" ++ node.database ++ "/"
            ++ ("docs?" ++ includesSegment c1.includes
              ++ "&id=" ++ Utils.quote_key k))
    ∧ (∀ s, (Utils.quote_key s b).data.all
        (fun ch => isUnreserved ch || ch == '%' || ch == '/') = true) := by
  refine ⟨orderedDictFromKeys_eq_firstSeenDedup ks, ?_, ?_,
    fun s => all_safe_quote_key s b⟩
  · unfold GetDocumentCommand.create_request
    rw [hk]
    simp only [gt_iff_lt, if_neg (not_lt.mpr hlen)]
    rw [orderedDictFromKeys_eq_firstSeenDedup]
  · unfold GetDocumentCommand.create_request
    rw [hk1]

/-- C5 witness: the duplicate list ["a", "b", "a"] and the single key
"a b" (whose space is percent-encoded) at a concrete node. -/
theorem C5_getdocument_key_encoding_witness :
    (GetDocumentCommand.create_request
      { key_or_keys := .keyList ["a", "b", "a"] }
      { url := "http://srv", database := "db" }).1.url
      = some ("http://srv" ++ "/databases/" ++ "db" ++ "/"
          ++ ("docs?" ++ includesSegment []
            ++ String.join ((firstSeenDedup ["a", "b", "a"]).map
                (fun item => "&id=" ++ Utils.quote_key item))))
    ∧ (GetDocumentCommand.create_request
      { key_or_keys := .single "a b" }
      { url := "http://srv", database := "db" }).1.url
      = some ("http://srv" ++ "/databases/" ++ "db" ++ "/"
          ++ ("docs?" ++ includesSegment [] ++ "&id=" ++ Utils.quote_key "a b")) :=
  ⟨(C5_getdocument_key_encoding
      { key_or_keys := .keyList ["a", "b", "a"] }
      { key_or_keys := .single "a b" }
      { url := "http://srv", database := "db" }
      ["a", "b", "a"] "a b" false rfl (by decide) rfl).2.1,
   (C5_getdocument_key_encoding
      { key_or_keys := .keyList ["a", "b", "a"] }
      { key_or_keys := .single "a b" }
      { url := "http://srv", database := "db" }
      ["a", "b", "a"] "a b" false rfl (by decide) rfl).2.2.1⟩

/-- C6: `PutDocumentCommand.set_response` on a JSON body carrying both
"Error" and "ActualEtag" raises the concurrency-conflict error
(`FetchConcurrencyException`); with "Error" but without "ActualEtag" it
raises the generic server error (`ErrorResponseException`); and the two
error kinds are distinct. -/
theorem C6_putdocument_conflict (c : PutDocumentCommand) (r : Response)
    (j : Json) (hj : r.jsonBody = some j) (herr : j.hasKey "Error" = true) :
    (j.hasKey "ActualEtag" = true →
      PutDocumentCommand.set_response c (some r)
        = .error (.fetchConcurrency (j.get "Error")))
    ∧ (j.hasKey "ActualEtag" = false →
      PutDocumentCommand.set_response c (some r)
        = .error (.errorResponse (j.get "Error")))
    ∧ (∀ v w : Json, PyErr.fetchConcurrency v ≠ PyErr.errorResponse w) := by
  obtain ⟨sc, body⟩ := r
  have hj' : body = some j := hj
  subst hj'
  refine ⟨fun hae => ?_, fun hae => ?_, fun v w h => by cases h⟩
  · simp [PutDocumentCommand.set_response, herr, hae]
  · simp [PutDocumentCommand.set_response, herr, hae]

/-- C6 witness: a conflict body and a plain error body at concrete inputs. -/
theorem C6_putdocument_conflict_witness :
    PutDocumentCommand.set_response { key := .str "k" }
      (some { status_code := 409,
              jsonBody := some (.obj [("Error", .str "conflict"),
                                      ("ActualEtag", .str "7")]) })
      = .error (.fetchConcurrency (.str "conflict"))
    ∧ PutDocumentCommand.set_response { key := .str "k" }
      (some { status_code := 500,
              jsonBody := some (.obj [("Error", .str "boom")]) })
      = .error (.errorResponse (.str "boom")) :=
  ⟨(C6_putdocument_conflict { key := .str "k" } _
      (.obj [("Error", .str "conflict"), ("ActualEtag", .str "7")])
      rfl rfl).1 rfl,
   (C6_putdocument_conflict { key := .str "k" } _
      (.obj [("Error", .str "boom")]) rfl rfl).2.1 rfl⟩

/-- C7 counterexample: the claim says the `PutIndexesCommand` constructor
raises when some index definition has an empty or missing name, but a
definition whose name is the empty string is accepted: construction
succeeds (the constructor only checks `name is None`). -/
theorem C7_counterexample_empty_name_accepted :
    putIndexesInitSucceeds [{ name := some "" }] = true := rfl

/-- C7 (amended): the `PutIndexesCommand` constructor raises for every
argument list in which some index definition has a missing (`None`) name,
and the failure happens during construction, before `create_request` is
ever involved; an empty-string name is not rejected. -/
theorem C7_none_name_raises (defs : List IndexDefinition)
    (h : ∃ d ∈ defs, d.name = none) :
    putIndexesInitSucceeds defs = false := by
  have hval : ∀ l : List IndexDefinition, (∃ d ∈ l, d.name = none) →
      ∃ e, putIndexesValidate l = .error e := by
    intro l
    induction l with
    | nil => rintro ⟨d, hd, _⟩; cases hd
    | cons d rest ih =>
      rintro ⟨x, hx, hname⟩
      unfold putIndexesValidate
      rcases List.mem_cons.mp hx with rfl | hx'
      · rw [hname]
        exact ⟨_, rfl⟩
      · rcases hd : d.name with _ | n
        · exact ⟨_, rfl⟩
        · rcases ih ⟨x, hx', hname⟩ with ⟨e, he⟩
          rw [he]
          exact ⟨e, rfl⟩
  rcases hval defs h with ⟨e, he⟩
  unfold putIndexesInitSucceeds PutIndexesCommand.init
  rw [he]

/-- C7 witness: a list containing a definition with a `None` name. -/
theorem C7_none_name_raises_witness :
    putIndexesInitSucceeds [{ name := some "ok" }, { name := none }] = false :=
  C7_none_name_raises [{ name := some "ok" }, { name := none }]
    ⟨{ name := none }, by simp, rfl⟩

/-- C8: across all sixteen concrete commands of the module, if
`create_request` raises then the command's `url` and `data` fields hold
their values from before the call: no partially built URL or body is
observable. -/
theorem C8_create_request_error_preserves_url_data (cmd : Cmd)
    (node : ServerNode)
    (h : (Cmd.create_request cmd node).2.isSome = true) :
    (Cmd.create_request cmd node).1.url = cmd.url
    ∧ (Cmd.create_request cmd node).1.data = cmd.data := by
  cases cmd with
  | getDocument c => exact getDocument_preserve c node h
  | deleteDocument c => exact deleteDocument_preserve c node h
  | putDocument c => exact putDocument_preserve c node h
  | batch c => exact batch_preserve c node h
  | putIndexes c => exact putIndexes_preserve c node h
  | getIndex c => exact getIndex_preserve c node h
  | deleteIndex c => exact deleteIndex_preserve c node h
  | patchByIndex c => exact patchByIndex_preserve c node h
  | deleteByIndex c => exact deleteByIndex_preserve c node h
  | patch c => exact patch_preserve c node h
  | query c => exact query_preserve c node h
  | getStatistics c => exact getStatistics_preserve c node h
  | getTopology c => exact getTopology_preserve c node h
  | getOperationState c => exact getOperationState_preserve c node h
  | createDatabase c => exact createDatabase_preserve c node h
  | deleteDatabase c => exact deleteDatabase_preserve c node h

/-- C8 witness: a `PatchCommand` whose etag block raises (the `{etag}`
format slip) keeps its prior `url` and `data` untouched. -/
theorem C8_create_request_error_preserves_url_data_witness :
    (Cmd.create_request
      (.patch { url := some "http://old", data := some (.str "old"),
                key := some "docs/1", patch := some { script := "s" },
                etag := some "abc" })
      { url := "http://srv", database := "db" }).1.url = some "http://old"
    ∧ (Cmd.create_request
      (.patch { url := some "http://old", data := some (.str "old"),
                key := some "docs/1", patch := some { script := "s" },
                etag := some "abc" })
      { url := "http://srv", database := "db" }).1.data = some (.str "old") :=
  C8_create_request_error_preserves_url_data
    (.patch { url := some "http://old", data := some (.str "old"),
              key := some "docs/1", patch := some { script := "s" },
              etag := some "abc" })
    { url := "http://srv", database := "db" } rfl

/-- C9: for a `BatchCommand` over sub-commands that each expose a `command`
attribute (a serializable command representation), `create_request` succeeds
and assembles the body as the list of the sub-commands' JSON serializations
in exactly submission order. -/
theorem C9_batch_preserves_order (cmds : List SubCommand) (node : ServerNode)
    (h : ∀ cmd ∈ cmds, cmd.has_command_attr = true) :
    (BatchCommand.create_request { commands_array := cmds } node).2 = none
    ∧ (BatchCommand.create_request { commands_array := cmds } node).1.data
        = some (.arr (cmds.map SubCommand.to_json))
    ∧ (BatchCommand.create_request { commands_array := cmds } node).1.url
        = some (node.url ++ "/databases/" ++ node.database ++ "/bulk_docs") := by
  unfold BatchCommand.create_request
  rw [batchBuildData_ok cmds h]
  exact ⟨rfl, rfl, rfl⟩

/-- C9 witness: two sub-commands serialized in submission order. -/
theorem C9_batch_preserves_order_witness :
    (BatchCommand.create_request
      { commands_array := [{ has_command_attr := true, to_json := .str "c1" },
                           { has_command_attr := true, to_json := .str "c2" }] }
      { url := "http://srv", database := "db" }).1.data
      = some (.arr [.str "c1", .str "c2"]) :=
  (C9_batch_preserves_order
    [{ has_command_attr := true, to_json := .str "c1" },
     { has_command_attr := true, to_json := .str "c2" }]
    { url := "http://srv", database := "db" }
    (by intro cmd hc; rcases List.mem_cons.mp hc with rfl | hc' <;>
      simp_all)).2.1

/-- C10: `PatchCommand.set_response` returns `None` without raising on a
`None` response and on any status other than 200, and returns the parsed
JSON body on a non-None response with status 200. -/
theorem C10_patch_set_response_none_or_200 (c : PatchCommand) (r : Response)
    (j : Json) :
    PatchCommand.set_response c none = .ok none
    ∧ (r.status_code ≠ 200 → PatchCommand.set_response c (some r) = .ok none)
    ∧ (r.status_code = 200 → r.jsonBody = some j →
        PatchCommand.set_response c (some r) = .ok (some j)) := by
  obtain ⟨sc, body⟩ := r
  refine ⟨rfl, fun hne => ?_, fun h200 hj => ?_⟩
  · have hne' : ¬ sc = 200 := hne
    simp [PatchCommand.set_response, hne']
  · have h200' : sc = 200 := h200
    have hj' : body = some j := hj
    subst h200' hj'
    simp [PatchCommand.set_response]

/-- C10 witness: a 404 yields `None`; a 200 yields the parsed body. -/
theorem C10_patch_set_response_none_or_200_witness :
    PatchCommand.set_response
      { key := some "docs/1", patch := some { script := "s" } }
      (some { status_code := 404, jsonBody := some (.obj []) }) = .ok none
    ∧ PatchCommand.set_response
      { key := some "docs/1", patch := some { script := "s" } }
      (some { status_code := 200,
              jsonBody := some (.obj [("ok", .bool true)]) })
      = .ok (some (.obj [("ok", .bool true)])) :=
  ⟨(C10_patch_set_response_none_or_200
      { key := some "docs/1", patch := some { script := "s" } }
      { status_code := 404, jsonBody := some (.obj []) } .null).2.1
      (by decide),
   (C10_patch_set_response_none_or_200
      { key := some "docs/1", patch := some { script := "s" } }
      { status_code := 200, jsonBody := some (.obj [("ok", .bool true)]) }
      (.obj [("ok", .bool true)])).2.2 rfl rfl⟩

end PyRaven
